import Mathlib

/-!
Shallow embedding of the state-synchronization and business-logic core of an
e-commerce storefront client: the cart store (`src/store/cartStore.js`), the
session-validation service (`src/services/sessionValidationService.js`) and
the business-logic service (`src/services/businessLogicService.js`).

JS numbers are modelled as `ℚ`, JS object fields that may be absent as
`Option`, thrown `Error(msg)` values as `Except String`, and the external
collaborators (Firestore documents, the auth singleton, the inventory/email/
search services) as explicit function parameters or association lists.
-/

namespace Storefront

/-! ## Cart store data model (`src/store/cartStore.js`) -/

/-- A cart line item as held in the zustand cart store: the product snapshot
fields the getters use (`id`, `name`, `price`) plus `quantity`. -/
structure CartItem where
  id : String
  name : String
  price : ℚ
  quantity : ℚ
deriving Repr, DecidableEq

/-- The observable slice of the cart store state: the `cart` array, the
`loading` flag and the `error` slot. -/
structure CartState where
  cart : List CartItem
  loading : Bool
  error : Option String
deriving Repr, DecidableEq

/-- Source `getTotalPrice`: `cart.reduce((total, item) => total + item.price * item.quantity, 0)`. -/
def getTotalPrice (s : CartState) : ℚ :=
  s.cart.foldl (fun total item => total + item.price * item.quantity) 0

/-- Source `getSubtotal`: returns `getTotalPrice()`. -/
def getSubtotal (s : CartState) : ℚ :=
  getTotalPrice s

/-- Source `getTax`: `getTotalPrice() * 0.08` (8% tax). -/
def getTax (s : CartState) : ℚ :=
  getTotalPrice s * (8 / 100)

/-- Source `getShipping`: `total > 500 ? 0 : 50` (free shipping over 500). -/
def getShipping (s : CartState) : ℚ :=
  if 500 < getTotalPrice s then 0 else 50

/-- Source `getGrandTotal`: `getSubtotal() + getTax() + getShipping()`. -/
def getGrandTotal (s : CartState) : ℚ :=
  getSubtotal s + getTax s + getShipping s

/-- Source `removeFromCart(id)`: no-op without a current user; otherwise delegates to
`businessLogicService.removeFromCart(uid, id)` (modelled as the oracle
`svcRemove`), adopting the returned cart on success and recording the error
message in the `error` slot on failure. -/
def removeFromCart (currentUser : Option String)
    (svcRemove : String → String → Except String (List CartItem))
    (id : String) (s : CartState) : CartState :=
  match currentUser with
  | none => s
  | some uid =>
    match svcRemove uid id with
    | .ok updatedCart => { s with cart := updatedCart }
    | .error e => { s with error := some e }

/-- Source `updateQuantity(id, qty)`: no-op without a current user; for `qty <= 0`
delegates to `removeFromCart(id)`; otherwise delegates to
`businessLogicService.updateCartQuantity(uid, id, qty)` (the oracle
`svcUpdate`), adopting the returned cart or recording the error. -/
def updateQuantity (currentUser : Option String)
    (svcRemove : String → String → Except String (List CartItem))
    (svcUpdate : String → String → ℚ → Except String (List CartItem))
    (id : String) (qty : ℚ) (s : CartState) : CartState :=
  match currentUser with
  | none => s
  | some uid =>
    if qty ≤ 0 then removeFromCart currentUser svcRemove id s
    else
      match svcUpdate uid id qty with
      | .ok updatedCart => { s with cart := updatedCart }
      | .error e => { s with error := some e }

/-! ## Subscription lifecycle (`subscribeToCart` in `src/store/cartStore.js`)

`onSnapshot` listeners are modelled by allocation of fresh numeric ids:
`active` holds the ids of listeners that were opened and whose cancellation
function has not been invoked, `cancelled` the ids whose cancellation function
has been invoked, and `handle` the `unsubscribe` handle held in store state. -/

/-- Listener bookkeeping for the cart subscription. -/
structure SubState where
  nextId : Nat
  active : List Nat
  cancelled : List Nat
  handle : Option Nat
deriving Repr, DecidableEq

/-- Invoking a listener's cancellation function: it stops being active and is
recorded as cancelled. -/
def cancelListener (i : Nat) (s : SubState) : SubState :=
  { s with active := s.active.filter (fun j => j != i), cancelled := i :: s.cancelled }

/-- Source `subscribeToCart()`: returns immediately when no user is signed in;
otherwise first invokes the stored `unsubscribe` handle if one exists, then
opens a new `onSnapshot` listener and stores its cancellation handle. -/
def subscribeToCart (currentUser : Option String) (s : SubState) : SubState :=
  match currentUser with
  | none => s
  | some _ =>
    let s1 := match s.handle with
      | some h => cancelListener h s
      | none => s
    { s1 with
      nextId := s1.nextId + 1
      active := s1.nextId :: s1.active
      handle := some s1.nextId }

/-- The single-live-subscription invariant: the stored handle is the one
active listener (none active when no handle is stored), and every listener
ever opened other than the stored handle has been cancelled. -/
def SubInv (s : SubState) : Prop :=
  (∀ h, s.handle = some h → s.active = [h] ∧ h < s.nextId) ∧
  (s.handle = none → s.active = []) ∧
  (∀ i, i < s.nextId → s.handle ≠ some i → i ∈ s.cancelled)

/-! ## Session validation service (`src/services/sessionValidationService.js`) -/

/-- A mirrored Firestore `users/{uid}` document as the validator reads it. -/
structure UserRecord where
  uid : String
  role : String
  suspended : Bool
  deactivated : Bool
deriving Repr, DecidableEq

/-- A permission-cache entry: the verdict, the user snapshot and the
`Date.now()` timestamp at which it was stored. -/
structure CacheEntry where
  hasPermission : Bool
  userData : UserRecord
  timestamp : Int
deriving Repr, DecidableEq

/-- The session cache, a JS `Map` modelled as an association list keyed by
the string `uid ++ "_" ++ requiredRole`. -/
abbrev SessionCache := List (String × CacheEntry)

/-- Source `this.cacheTimeout = 5 * 60 * 1000` — the 5-minute TTL in milliseconds. -/
def cacheTimeout : Int := 5 * 60 * 1000

/-- Source `Map.prototype.get`. -/
def cacheGet (c : SessionCache) (k : String) : Option CacheEntry :=
  (c.find? (fun kv => kv.1 == k)).map (fun kv => kv.2)

/-- Source `Map.prototype.delete` for one key. -/
def cacheDelete (c : SessionCache) (k : String) : SessionCache :=
  c.filter (fun kv => kv.1 != k)

/-- Source `Map.prototype.set`. -/
def cacheSet (c : SessionCache) (k : String) (e : CacheEntry) : SessionCache :=
  (k, e) :: cacheDelete c k

/-- The outcome of one `validateUserRole` call: the returned user data or
thrown error, the cache afterwards, and the number of fresh `getDoc` reads of
the `users` collection the call issued. -/
structure RoleCheckResult where
  result : Except String UserRecord
  cache : SessionCache
  reads : Nat
deriving Repr

/-- The cache-miss path of `validateUserRole`: re-read the user document,
reject missing/suspended/deactivated accounts, compute
`hasPermission = (userData.role === requiredRole)`, cache the verdict, and
return the user data or throw the access-denied error.  Always issues exactly
one fresh read. -/
def validateUserRoleFresh (uid : String) (store : String → Option UserRecord)
    (now : Int) (cache : SessionCache) (cacheKey requiredRole : String) :
    RoleCheckResult :=
  match store uid with
  | none => ⟨.error "User document not found", cache, 1⟩
  | some userData =>
    if userData.suspended then ⟨.error "User account suspended", cache, 1⟩
    else if userData.deactivated then ⟨.error "User account deactivated", cache, 1⟩
    else
      let hasPermission := userData.role == requiredRole
      let cache1 := cacheSet cache cacheKey ⟨hasPermission, userData, now⟩
      if !hasPermission then
        ⟨.error ("Access denied. Required role: " ++ requiredRole ++
          ", current role: " ++ userData.role), cache1, 1⟩
      else ⟨.ok userData, cache1, 1⟩

/-- Source `validateUserRole(requiredRole = 'admin')`.  `auth.currentUser` is the
`currentUser` parameter (its uid), the `users` collection is the read-only
`store` parameter and `Date.now()` is `now`.  A cached entry younger than
`cacheTimeout` answers from the cache without a read; otherwise the
cache-miss path `validateUserRoleFresh` runs. -/
def validateUserRole (currentUser : Option String)
    (store : String → Option UserRecord) (now : Int)
    (cache : SessionCache) (requiredRole : String) : RoleCheckResult :=
  match currentUser with
  | none => ⟨.error "User not authenticated", cache, 0⟩
  | some uid =>
    let cacheKey := uid ++ "_" ++ requiredRole
    match cacheGet cache cacheKey with
    | some cached =>
      if now - cached.timestamp < cacheTimeout then
        if !cached.hasPermission then ⟨.error "Insufficient permissions", cache, 0⟩
        else ⟨.ok cached.userData, cache, 0⟩
      else validateUserRoleFresh uid store now cache cacheKey requiredRole
    | none => validateUserRoleFresh uid store now cache cacheKey requiredRole

/-- The static role→resource→allowed-actions matrix literal inside
`checkPermission` (`permissions[role] || {}` and `[resource] || []`). -/
def permissionsMatrix (role resource : String) : List String :=
  if role == "admin" then
    if resource == "products" then ["create", "read", "update", "delete"]
    else if resource == "orders" then ["read", "update", "delete"]
    else if resource == "users" then ["read", "update"]
    else if resource == "analytics" then ["read"]
    else if resource == "settings" then ["read", "update"]
    else []
  else if role == "editor" then
    if resource == "products" then ["create", "read", "update"]
    else if resource == "orders" then ["read", "update"]
    else if resource == "analytics" then ["read"]
    else []
  else if role == "support" then
    if resource == "orders" then ["read", "update"]
    else if resource == "users" then ["read"]
    else []
  else if role == "customer" then
    if resource == "orders" then ["read"]
    else if resource == "profile" then ["read", "update"]
    else []
  else []

/-- Source `checkPermission(action, resource)`: first `await this.validateUserRole()`
— the call site passes no argument, so the default `requiredRole = 'admin'`
applies — then consults the permission matrix for the user's role and throws
the permission-denied error when the action is not listed. -/
def checkPermission (currentUser : Option String)
    (store : String → Option UserRecord) (now : Int) (cache : SessionCache)
    (action resource : String) : Except String Bool × SessionCache × Nat :=
  let r := validateUserRole currentUser store now cache "admin"
  match r.result with
  | .error e => (.error e, r.cache, r.reads)
  | .ok userData =>
    let resourcePermissions := permissionsMatrix userData.role resource
    if !(resourcePermissions.contains action) then
      (.error ("Permission denied: " ++ userData.role ++ " cannot " ++
        action ++ " " ++ resource), r.cache, r.reads)
    else (.ok true, r.cache, r.reads)

/-- JS `String.prototype.startsWith`, on the underlying character lists. -/
def jsStartsWith (s p : String) : Bool :=
  p.data.isPrefixOf s.data

/-- Source `clearCache(userId = null)`: with a userId, deletes every entry whose key
starts with it while iterating the map; with no argument, clears the map. -/
def clearCache (cache : SessionCache) (userId : Option String) : SessionCache :=
  match userId with
  | some uid => cache.filter (fun kv => !(jsStartsWith kv.1 uid))
  | none => []

/-! ## Business logic service (`src/services/businessLogicService.js`) -/

/-- JS truthiness of a possibly-absent string field (`undefined` and `""` are
falsy). -/
def truthyStr : Option String → Bool
  | none => false
  | some s => !(s == "")

/-- JS truthiness of a possibly-absent numeric field (`undefined` and `0` are
falsy). -/
def truthyNum : Option ℚ → Bool
  | none => false
  | some q => !(q == 0)

/-- The `productData` argument of `createProduct`: each validated field may
be absent. -/
structure ProductData where
  name : Option String
  description : Option String
  price : Option ℚ
  category : Option String
  quantityAvailable : Option ℚ
deriving Repr, DecidableEq

/-- Source `validateProductData(productData)`: the required-field loop over
`['name', 'description', 'price', 'category', 'quantityAvailable']` with the
JS-truthiness test `!productData[field]`, then the `price <= 0` and
`quantityAvailable < 0` checks. -/
def validateProductData (p : ProductData) : Except String Unit :=
  if !truthyStr p.name then .error "Missing required field: name"
  else if !truthyStr p.description then .error "Missing required field: description"
  else if !truthyNum p.price then .error "Missing required field: price"
  else if !truthyStr p.category then .error "Missing required field: category"
  else if !truthyNum p.quantityAvailable then
    .error "Missing required field: quantityAvailable"
  else if p.price.getD 0 ≤ 0 then .error "Price must be greater than 0"
  else if p.quantityAvailable.getD 0 < 0 then .error "Quantity cannot be negative"
  else .ok ()

/-- A stored `products/{id}` document (the fields order processing touches). -/
structure Product where
  name : String
  quantityAvailable : ℚ
deriving Repr, DecidableEq

/-- An order line item as the client sends it: the product id, the requested
`quantity`, and the product-snapshot field `quantityAvailable` carried on the
item (the batch update reads it from the item, not from the database). -/
structure OrderItem where
  id : String
  quantity : ℚ
  quantityAvailable : ℚ
deriving Repr, DecidableEq

/-- Source `orderData.shipping`. -/
structure Shipping where
  address : Option String
deriving Repr, DecidableEq

/-- The `orderData` argument of `processOrder`. -/
structure OrderData where
  items : List OrderItem
  shipping : Option Shipping
deriving Repr, DecidableEq

/-- The created `orders/{id}` document (spread `orderData` plus the fields
`processOrder` adds). -/
structure Order where
  id : String
  items : List OrderItem
  shipping : Option Shipping
  userId : String
  orderNumber : String
  status : String
  createdAt : String
deriving Repr, DecidableEq

/-- Lookup in a Firestore collection modelled as an association list. -/
def lookupKey {α : Type} (l : List (String × α)) (k : String) : Option α :=
  (l.find? (fun kv => kv.1 == k)).map (fun kv => kv.2)

/-- Write of a whole document / merge of the updated fields. -/
def insertKey {α : Type} (l : List (String × α)) (k : String) (v : α) :
    List (String × α) :=
  (k, v) :: l.filter (fun kv => kv.1 != k)

/-- The slice of the Firestore database that order processing touches. -/
structure DB where
  users : List (String × UserRecord)
  products : List (String × Product)
  orders : List (String × Order)
deriving Repr, DecidableEq

/-- Source `validateActiveSession(userId)`: reads `users/{userId}`, rejects a
missing document or a suspended account. -/
def validateActiveSession (db : DB) (userId : String) : Except String UserRecord :=
  match lookupKey db.users userId with
  | none => .error "Invalid user session"
  | some userData =>
    if userData.suspended then .error "User account suspended"
    else .ok userData

/-- The per-item loop of `validateOrderData`: each product document must
exist and its stored `quantityAvailable` must cover the requested quantity. -/
def validateOrderItems (db : DB) : List OrderItem → Except String Unit
  | [] => .ok ()
  | item :: rest =>
    match lookupKey db.products item.id with
    | none => .error ("Product " ++ item.id ++ " not found")
    | some product =>
      if product.quantityAvailable < item.quantity then
        .error ("Insufficient stock for " ++ product.name)
      else validateOrderItems db rest

/-- Source `validateOrderData(orderData)`: at least one item, a truthy
`shipping.address`, then the per-item existence/stock pre-check. -/
def validateOrderData (db : DB) (orderData : OrderData) : Except String Unit :=
  if orderData.items.isEmpty then .error "Order must contain at least one item"
  else
    match orderData.shipping with
    | none => .error "Shipping address is required"
    | some shipping =>
      if !truthyStr shipping.address then .error "Shipping address is required"
      else validateOrderItems db orderData.items

/-- Source `validateInventoryAvailability(items)`: the advisory read-then-decide
loop through `inventoryService.checkAvailability` (external to `src`,
modelled as the oracle `checkAvail`). -/
def validateInventoryAvailability (checkAvail : String → ℚ) :
    List OrderItem → Except String Unit
  | [] => .ok ()
  | item :: rest =>
    if checkAvail item.id < item.quantity then
      .error ("Insufficient inventory for product " ++ item.id)
    else validateInventoryAvailability checkAvail rest

/-- The batched product updates: each `batch.update` overwrites the stored
`quantityAvailable` with `item.quantityAvailable - item.quantity`, a value
computed from the item's own snapshot field.  Firestore `update` requires
the target document to exist; otherwise the whole commit fails and applies
nothing. -/
def applyInventoryUpdates (products : List (String × Product)) :
    List OrderItem → Except String (List (String × Product))
  | [] => .ok products
  | item :: rest =>
    match lookupKey products item.id with
    | none => .error "No document to update"
    | some p =>
      applyInventoryUpdates
        (insertKey products item.id
          { p with quantityAvailable := item.quantityAvailable - item.quantity })
        rest

/-- The order document `processOrder` builds before the batch commit. -/
def builtOrder (orderId orderNumber createdAt userId : String)
    (orderData : OrderData) : Order :=
  { id := orderId, items := orderData.items, shipping := orderData.shipping,
    userId := userId, orderNumber := orderNumber, status := "processing",
    createdAt := createdAt }

/-- Source `batch.set(orderRef, order)` plus the inventory updates, committed
all-or-nothing. -/
def commitOrderBatch (db : DB) (order : Order) (items : List OrderItem) :
    Except String DB :=
  match applyInventoryUpdates db.products items with
  | .error e => .error e
  | .ok products1 =>
    .ok { db with orders := insertKey db.orders order.id order,
                  products := products1 }

/-- Source `processOrder(orderData, userId)`.  `orderId`, `orderNumber` and
`createdAt` stand for the generated document reference,
`this.generateOrderNumber()` and `new Date().toISOString()`; `checkAvail`
and `sendEmail` are the external inventory and email services.  Returns the
result together with the database afterwards.  Everything inside the
source's `try` block — the batch commit and the confirmation email — is
wrapped by the `catch`: a thrown message `m` surfaces as
`"Failed to process order: " ++ m`. -/
def processOrder (db : DB) (checkAvail : String → ℚ)
    (sendEmail : Order → Except String Unit)
    (orderId orderNumber createdAt : String)
    (orderData : OrderData) (userId : String) : Except String Order × DB :=
  match validateActiveSession db userId with
  | .error e => (.error e, db)
  | .ok _ =>
    match validateOrderData db orderData with
    | .error e => (.error e, db)
    | .ok _ =>
      match validateInventoryAvailability checkAvail orderData.items with
      | .error e => (.error e, db)
      | .ok _ =>
        let order := builtOrder orderId orderNumber createdAt userId orderData
        match commitOrderBatch db order orderData.items with
        | .error e => (.error ("Failed to process order: " ++ e), db)
        | .ok db1 =>
          match sendEmail order with
          | .error e => (.error ("Failed to process order: " ++ e), db1)
          | .ok _ => (.ok order, db1)

/-- Source `syncProductToSearch(productId, productData)`: the dynamic import and
`searchService.indexProduct` call (the oracle `indexProduct`), with any
thrown error caught and logged, never rethrown. -/
def syncProductToSearch (indexProduct : Except String Unit) :
    Except String Unit :=
  match indexProduct with
  | .error _ => .ok ()
  | .ok _ => .ok ()

/-! ## Theorems -/

/-- One `subscribeToCart()` call with a signed-in user: the invariant is
preserved, exactly one listener is active afterwards, the previously stored
handle has been cancelled, and cancellations are never forgotten. -/
theorem subscribeToCart_some_step (uid : String) (s : SubState) (hs : SubInv s) :
    SubInv (subscribeToCart (some uid) s) ∧
    (subscribeToCart (some uid) s).active.length = 1 ∧
    (∀ h, s.handle = some h → h ∈ (subscribeToCart (some uid) s).cancelled) ∧
    (∀ i, i ∈ s.cancelled → i ∈ (subscribeToCart (some uid) s).cancelled) := by
  obtain ⟨h1, h2, h3⟩ := hs
  cases hh : s.handle with
  | none =>
    have ha : s.active = [] := h2 hh
    refine ⟨⟨?_, ?_, ?_⟩, ?_, ?_, ?_⟩
    · intro h hmem
      simp [subscribeToCart, hh, ha] at hmem ⊢
      omega
    · intro hc
      simp [subscribeToCart, hh] at hc
    · intro i hi hne
      simp [subscribeToCart, hh] at hi hne ⊢
      exact h3 i (by omega) (by simp [hh])
    · simp [subscribeToCart, hh, ha]
    · intro h hmem
      exact absurd hmem (by simp)
    · intro i hmem
      simp [subscribeToCart, hh]
      exact hmem
  | some h0 =>
    obtain ⟨ha, hlt⟩ := h1 h0 hh
    refine ⟨⟨?_, ?_, ?_⟩, ?_, ?_, ?_⟩
    · intro h hmem
      simp [subscribeToCart, hh, cancelListener, ha] at hmem ⊢
      omega
    · intro hc
      simp [subscribeToCart, hh, cancelListener] at hc
    · intro i hi hne
      simp [subscribeToCart, hh, cancelListener] at hi hne ⊢
      rcases eq_or_ne i h0 with rfl | hne0
      · left; rfl
      · right
        exact h3 i (by omega) (by simp [hh]; omega)
    · simp [subscribeToCart, hh, cancelListener, ha]
    · intro h hmem
      injection hmem with hmem
      subst hmem
      simp [subscribeToCart, hh, cancelListener]
    · intro i hmem
      simp [subscribeToCart, hh, cancelListener]
      exact Or.inr hmem

/-- Claim C7: `subscribeToCart` keeps at most one live cart listener: a call
with a signed-in user first invokes the existing subscription's cancellation
function before opening the new listener, so the single-live-subscription
invariant is preserved, exactly one listener is active after the call, the
prior handle's cancellation function has been invoked, and in particular two
calls in succession (as `loadCart`'s repeated subscription starts perform)
leave exactly one active listener with the first call's listener cancelled. -/
theorem subscribeToCart_single_live (currentUser : Option String) (s : SubState)
    (hs : SubInv s) :
    SubInv (subscribeToCart currentUser s) ∧
    (∀ uid, currentUser = some uid →
      (subscribeToCart currentUser s).active.length = 1 ∧
      (∀ h, s.handle = some h → h ∈ (subscribeToCart currentUser s).cancelled) ∧
      (subscribeToCart currentUser (subscribeToCart currentUser s)).active.length = 1 ∧
      (∀ h, (subscribeToCart currentUser s).handle = some h →
        h ∈ (subscribeToCart currentUser (subscribeToCart currentUser s)).cancelled)) := by
  cases currentUser with
  | none => exact ⟨hs, fun uid h => by cases h⟩
  | some uid =>
    obtain ⟨hinv1, hlen1, hcancel1, hkeep1⟩ := subscribeToCart_some_step uid s hs
    obtain ⟨hinv2, hlen2, hcancel2, hkeep2⟩ :=
      subscribeToCart_some_step uid (subscribeToCart (some uid) s) hinv1
    exact ⟨hinv1, fun u hu => by
      injection hu with hu
      subst hu
      exact ⟨hlen1, hcancel1, hlen2, hcancel2⟩⟩

/-- Witness for C7 at a concrete state: a live listener `0` for user `u1`. -/
theorem subscribeToCart_single_live_witness :
    SubInv { nextId := 1, active := [0], cancelled := [], handle := some 0 } ∧
    (subscribeToCart (some "u1")
        { nextId := 1, active := [0], cancelled := [], handle := some 0 }).active.length = 1 ∧
    0 ∈ (subscribeToCart (some "u1")
        { nextId := 1, active := [0], cancelled := [], handle := some 0 }).cancelled := by
  have hinv : SubInv { nextId := 1, active := [0], cancelled := [], handle := some 0 } := by
    refine ⟨?_, ?_, ?_⟩ <;> simp +decide [SubInv]
  obtain ⟨_, hrest⟩ := subscribeToCart_single_live (some "u1")
    { nextId := 1, active := [0], cancelled := [], handle := some 0 } hinv
  obtain ⟨hlen, hcancel, _, _⟩ := hrest "u1" rfl
  exact ⟨hinv, hlen, hcancel 0 rfl⟩

/-- Claim C8: for every cart state, every current user, every backing-service
behaviour and every item id, calling `updateQuantity(id, qty)` with `qty <= 0`
produces exactly the same cart state as calling `removeFromCart(id)`. -/
theorem updateQuantity_nonpos_eq_removeFromCart
    (currentUser : Option String)
    (svcRemove : String → String → Except String (List CartItem))
    (svcUpdate : String → String → ℚ → Except String (List CartItem))
    (id : String) (qty : ℚ) (s : CartState) (hq : qty ≤ 0) :
    updateQuantity currentUser svcRemove svcUpdate id qty s =
      removeFromCart currentUser svcRemove id s := by
  cases currentUser with
  | none => rfl
  | some uid => simp [updateQuantity, removeFromCart, if_pos hq]

/-- Witness for C8 at a concrete input: user `u1`, item `p1`, `qty = 0`. -/
theorem updateQuantity_nonpos_eq_removeFromCart_witness :
    updateQuantity (some "u1") (fun _ _ => .ok []) (fun _ _ _ => .ok [])
        "p1" 0 { cart := [], loading := false, error := none } =
      removeFromCart (some "u1") (fun _ _ => .ok [])
        "p1" { cart := [], loading := false, error := none } :=
  updateQuantity_nonpos_eq_removeFromCart (some "u1") (fun _ _ => .ok [])
    (fun _ _ _ => .ok []) "p1" 0 { cart := [], loading := false, error := none }
    (by norm_num)

/-- Claim C9: in every cart state, `getGrandTotal()` equals
`getSubtotal() + getTax() + getShipping()` and `getTax()` equals 8% of
`getSubtotal()`.  The getters are pure by construction: each is a function of
the state returning a value, touching no store state. -/
theorem grandTotal_identity (s : CartState) :
    getGrandTotal s = getSubtotal s + getTax s + getShipping s ∧
    getTax s = (8 / 100) * getSubtotal s := by
  refine ⟨rfl, ?_⟩
  unfold getTax getSubtotal
  ring

/-! ### Permission-cache lemmas -/

theorem cacheGet_cacheSet_self (c : SessionCache) (k : String) (e : CacheEntry) :
    cacheGet (cacheSet c k e) k = some e := by
  simp [cacheGet, cacheSet, List.find?]

theorem cacheGet_cacheDelete_self (c : SessionCache) (k : String) :
    cacheGet (cacheDelete c k) k = none := by
  unfold cacheGet
  have h : (cacheDelete c k).find? (fun kv => kv.1 == k) = none := by
    apply List.find?_eq_none.mpr
    intro kv hmem
    have hkv := List.of_mem_filter hmem
    simp only [bne_iff_ne, ne_eq] at hkv
    simp [hkv]
  rw [h]
  rfl

theorem validateUserRoleFresh_reads (uid : String)
    (store : String → Option UserRecord) (now : Int) (cache : SessionCache)
    (k role : String) :
    (validateUserRoleFresh uid store now cache k role).reads = 1 := by
  unfold validateUserRoleFresh
  cases store uid <;> simp [apply_ite RoleCheckResult.reads]

theorem validateUserRoleFresh_result_congr (uid : String)
    (store : String → Option UserRecord) (now : Int)
    (c1 c2 : SessionCache) (k role : String) :
    (validateUserRoleFresh uid store now c1 k role).result =
      (validateUserRoleFresh uid store now c2 k role).result := by
  unfold validateUserRoleFresh
  cases store uid <;> simp [apply_ite RoleCheckResult.result]

theorem validateUserRoleFresh_cache_ok (uid : String)
    (store : String → Option UserRecord) (now : Int) (cache : SessionCache)
    (k role : String) (u : UserRecord) (hu : store uid = some u)
    (hs : u.suspended = false) (hd : u.deactivated = false) :
    (validateUserRoleFresh uid store now cache k role).cache =
      cacheSet cache k ⟨u.role == role, u, now⟩ := by
  unfold validateUserRoleFresh
  rw [hu]
  simp [hs, hd, apply_ite RoleCheckResult.cache]

theorem validateUserRole_hit (uid role : String)
    (store : String → Option UserRecord) (cache : SessionCache) (now : Int)
    (e : CacheEntry) (he : cacheGet cache (uid ++ "_" ++ role) = some e)
    (ht : now - e.timestamp < cacheTimeout) :
    validateUserRole (some uid) store now cache role =
      ⟨if e.hasPermission then .ok e.userData
        else .error "Insufficient permissions", cache, 0⟩ := by
  unfold validateUserRole
  simp only [he, ht, if_true]
  cases e.hasPermission <;> simp

theorem validateUserRole_miss (uid role : String)
    (store : String → Option UserRecord) (cache : SessionCache) (now : Int)
    (hmiss : cacheGet cache (uid ++ "_" ++ role) = none) :
    validateUserRole (some uid) store now cache role =
      validateUserRoleFresh uid store now cache (uid ++ "_" ++ role) role := by
  unfold validateUserRole
  simp [hmiss]

theorem validateUserRole_stale (uid role : String)
    (store : String → Option UserRecord) (cache : SessionCache) (now : Int)
    (e : CacheEntry) (he : cacheGet cache (uid ++ "_" ++ role) = some e)
    (ht : cacheTimeout ≤ now - e.timestamp) :
    validateUserRole (some uid) store now cache role =
      validateUserRoleFresh uid store now cache (uid ++ "_" ++ role) role := by
  unfold validateUserRole
  simp [he, not_lt.mpr ht]

/-- Claim C6: a cache entry younger than the 5-minute TTL answers the
permission check with no fresh read of the `users` collection (returning the
cached record when `hasPermission` is true and failing otherwise), while an
entry older than the TTL is treated as absent — the check issues one fresh
read and decides exactly as it would with no entry; consequently two checks
within the TTL window issue exactly one fresh read in total and a third check
after the TTL elapses issues a second. -/
theorem validateUserRole_ttl (uid requiredRole : String)
    (store : String → Option UserRecord) (cache : SessionCache) (now : Int)
    (e : CacheEntry)
    (he : cacheGet cache (uid ++ "_" ++ requiredRole) = some e) :
    (now - e.timestamp < cacheTimeout →
      (validateUserRole (some uid) store now cache requiredRole).reads = 0 ∧
      (validateUserRole (some uid) store now cache requiredRole).result =
        (if e.hasPermission then .ok e.userData
          else .error "Insufficient permissions")) ∧
    (cacheTimeout ≤ now - e.timestamp →
      (validateUserRole (some uid) store now cache requiredRole).reads = 1 ∧
      (validateUserRole (some uid) store now cache requiredRole).result =
        (validateUserRole (some uid) store now
          (cacheDelete cache (uid ++ "_" ++ requiredRole)) requiredRole).result) ∧
    (∀ u t0 t1 t2, store uid = some u → u.suspended = false →
      u.deactivated = false → t1 - t0 < cacheTimeout →
      cacheTimeout ≤ t2 - t0 →
      (validateUserRole (some uid) store t0
        (cacheDelete cache (uid ++ "_" ++ requiredRole)) requiredRole).reads = 1 ∧
      (validateUserRole (some uid) store t1
        (validateUserRole (some uid) store t0
          (cacheDelete cache (uid ++ "_" ++ requiredRole)) requiredRole).cache
        requiredRole).reads = 0 ∧
      (validateUserRole (some uid) store t2
        (validateUserRole (some uid) store t1
          (validateUserRole (some uid) store t0
            (cacheDelete cache (uid ++ "_" ++ requiredRole)) requiredRole).cache
          requiredRole).cache requiredRole).reads = 1) := by
  refine ⟨?_, ?_, ?_⟩
  · intro ht
    rw [validateUserRole_hit uid requiredRole store cache now e he ht]
    exact ⟨rfl, rfl⟩
  · intro ht
    rw [validateUserRole_stale uid requiredRole store cache now e he ht,
      validateUserRole_miss uid requiredRole store
        (cacheDelete cache (uid ++ "_" ++ requiredRole)) now
        (cacheGet_cacheDelete_self cache (uid ++ "_" ++ requiredRole))]
    exact ⟨validateUserRoleFresh_reads uid store now cache
        (uid ++ "_" ++ requiredRole) requiredRole,
      validateUserRoleFresh_result_congr uid store now cache
        (cacheDelete cache (uid ++ "_" ++ requiredRole))
        (uid ++ "_" ++ requiredRole) requiredRole⟩
  · intro u t0 t1 t2 hu hs hd h01 h02
    have hmiss := cacheGet_cacheDelete_self cache (uid ++ "_" ++ requiredRole)
    have hr0 := validateUserRole_miss uid requiredRole store
      (cacheDelete cache (uid ++ "_" ++ requiredRole)) t0 hmiss
    have hr0cache : (validateUserRole (some uid) store t0
        (cacheDelete cache (uid ++ "_" ++ requiredRole)) requiredRole).cache =
        cacheSet (cacheDelete cache (uid ++ "_" ++ requiredRole))
          (uid ++ "_" ++ requiredRole) ⟨u.role == requiredRole, u, t0⟩ := by
      rw [hr0]
      exact validateUserRoleFresh_cache_ok uid store t0
        (cacheDelete cache (uid ++ "_" ++ requiredRole))
        (uid ++ "_" ++ requiredRole) requiredRole u hu hs hd
    have hget1 : cacheGet (validateUserRole (some uid) store t0
        (cacheDelete cache (uid ++ "_" ++ requiredRole)) requiredRole).cache
        (uid ++ "_" ++ requiredRole) = some ⟨u.role == requiredRole, u, t0⟩ := by
      rw [hr0cache]
      exact cacheGet_cacheSet_self _ _ _
    have hr1 := validateUserRole_hit uid requiredRole store
      (validateUserRole (some uid) store t0
        (cacheDelete cache (uid ++ "_" ++ requiredRole)) requiredRole).cache
      t1 ⟨u.role == requiredRole, u, t0⟩ hget1 h01
    refine ⟨?_, ?_, ?_⟩
    · rw [hr0]
      exact validateUserRoleFresh_reads uid store t0
        (cacheDelete cache (uid ++ "_" ++ requiredRole))
        (uid ++ "_" ++ requiredRole) requiredRole
    · rw [hr1]
    · have hget2 : cacheGet (validateUserRole (some uid) store t1
          (validateUserRole (some uid) store t0
            (cacheDelete cache (uid ++ "_" ++ requiredRole)) requiredRole).cache
          requiredRole).cache (uid ++ "_" ++ requiredRole) =
          some ⟨u.role == requiredRole, u, t0⟩ := by
        rw [hr1]
        exact hget1
      rw [validateUserRole_stale uid requiredRole store _ t2
        ⟨u.role == requiredRole, u, t0⟩ hget2 h02]
      exact validateUserRoleFresh_reads uid store t2 _
        (uid ++ "_" ++ requiredRole) requiredRole

/-- Witness for C6: user `u1` with role `admin`, a fresh cached verdict
stored at time 0, checked at times 1000 (hit), 1000 again (hit) and
400000 (past the 300000-millisecond TTL, fresh read). -/
theorem validateUserRole_ttl_witness :
    (validateUserRole (some "u1")
      (fun _ => some ⟨"u1", "admin", false, false⟩) 1000
      [("u1_admin", ⟨true, ⟨"u1", "admin", false, false⟩, 0⟩)] "admin").reads = 0 := by
  have h := (validateUserRole_ttl "u1" "admin"
    (fun _ => some ⟨"u1", "admin", false, false⟩)
    [("u1_admin", ⟨true, ⟨"u1", "admin", false, false⟩, 0⟩)] 1000
    ⟨true, ⟨"u1", "admin", false, false⟩, 0⟩ rfl).1 (by decide)
  exact h.1

/-- Claim C3 (refuted — code bug): the static matrix itself lists action
`read` on resource `orders` for role `customer`, yet `checkPermission` called
by a subject with role `customer` fails: the call site invokes
`validateUserRole()` with no argument, so the default required role `admin`
is checked and the access-denied error is thrown before the matrix is ever
consulted.  The matrix rows for the non-admin roles are unreachable. -/
theorem checkPermission_customer_read_orders :
    (permissionsMatrix "customer" "orders").contains "read" = true ∧
    (checkPermission (some "cust1")
        (fun uid => if uid == "cust1"
          then some ⟨"cust1", "customer", false, false⟩ else none)
        0 [] "read" "orders").1 =
      .error "Access denied. Required role: admin, current role: customer" :=
  ⟨rfl, rfl⟩

theorem jsStartsWith_append (a b : String) : jsStartsWith (a ++ b) a = true := by
  simp [jsStartsWith, String.data_append, List.isPrefixOf_iff_prefix]

/-- Claim C10: `clearCache(subjectId)` removes exactly the cache entries
whose key string begins with `subjectId` — hence every entry of that subject
for every required role (so the next check performs a fresh read regardless
of TTL), and also entries of any other subject whose uid extends `subjectId`
— while `clearCache()` with no argument empties the cache. -/
theorem clearCache_startsWith (cache : SessionCache) (uid : String) :
    (∀ kv, kv ∈ clearCache cache (some uid) ↔
      kv ∈ cache ∧ jsStartsWith kv.1 uid = false) ∧
    (∀ role, cacheGet (clearCache cache (some uid)) (uid ++ "_" ++ role) = none) ∧
    (∀ store now role,
      (validateUserRole (some uid) store now
        (clearCache cache (some uid)) role).reads = 1) ∧
    clearCache cache none = [] := by
  have hnone : ∀ role, cacheGet (clearCache cache (some uid))
      (uid ++ "_" ++ role) = none := by
    intro role
    unfold cacheGet
    have h : (clearCache cache (some uid)).find?
        (fun kv => kv.1 == (uid ++ "_" ++ role)) = none := by
      apply List.find?_eq_none.mpr
      intro kv hmem
      simp only [clearCache] at hmem
      have hkv := List.of_mem_filter hmem
      simp only [beq_iff_eq]
      intro hkey
      rw [hkey] at hkv
      rw [String.append_assoc, jsStartsWith_append] at hkv
      simp at hkv
    rw [h]
    rfl
  refine ⟨?_, hnone, ?_, rfl⟩
  · intro kv
    simp [clearCache, List.mem_filter, Bool.not_eq_true']
  · intro store now role
    rw [validateUserRole_miss uid role store (clearCache cache (some uid)) now
      (hnone role)]
    exact validateUserRoleFresh_reads uid store now (clearCache cache (some uid))
      (uid ++ "_" ++ role) role

/-! ### Association-list and batch-update lemmas -/

theorem lookupKey_insertKey_self {α : Type} (l : List (String × α)) (k : String)
    (v : α) : lookupKey (insertKey l k v) k = some v := by
  simp [lookupKey, insertKey, List.find?]

theorem find?_filter_of_ne {α : Type} (l : List (String × α)) (k k' : String)
    (h : k' ≠ k) :
    (l.filter (fun kv => kv.1 != k)).find? (fun kv => kv.1 == k') =
      l.find? (fun kv => kv.1 == k') := by
  induction l with
  | nil => rfl
  | cons hd tl ih =>
    by_cases hk : hd.1 = k
    · have hq : (hd.1 != k) = false := by simp [hk]
      have hp : (hd.1 == k') = false := by
        rw [hk]
        exact beq_eq_false_iff_ne.mpr (Ne.symm h)
      simp [List.filter_cons, hq, List.find?_cons, hp, ih]
    · have hq : (hd.1 != k) = true := by simp [hk]
      by_cases hp : hd.1 = k'
      · have hp' : (hd.1 == k') = true := by simp [hp]
        simp [List.filter_cons, hq, List.find?_cons, hp']
      · have hp' : (hd.1 == k') = false := beq_eq_false_iff_ne.mpr hp
        simp [List.filter_cons, hq, List.find?_cons, hp', ih]

theorem lookupKey_insertKey_ne {α : Type} (l : List (String × α)) (k k' : String)
    (v : α) (h : k' ≠ k) :
    lookupKey (insertKey l k v) k' = lookupKey l k' := by
  unfold lookupKey insertKey
  rw [List.find?_cons_of_neg _ (by simpa using Ne.symm h),
    find?_filter_of_ne l k k' h]

theorem applyInventoryUpdates_untouched (items : List OrderItem) :
    ∀ (ps ps' : List (String × Product)) (k : String),
      applyInventoryUpdates ps items = .ok ps' →
      k ∉ items.map OrderItem.id →
      lookupKey ps' k = lookupKey ps k := by
  induction items with
  | nil =>
    intro ps ps' k h hk
    injection h with h
    rw [h]
  | cons item rest ih =>
    intro ps ps' k h hk
    simp only [applyInventoryUpdates] at h
    cases hp : lookupKey ps item.id with
    | none => rw [hp] at h; cases h
    | some p =>
      rw [hp] at h
      simp only [List.map_cons, List.mem_cons, not_or] at hk
      rw [ih _ _ k h hk.2, lookupKey_insertKey_ne _ _ _ _ hk.1]

theorem applyInventoryUpdates_mem (items : List OrderItem) :
    ∀ (ps ps' : List (String × Product)) (item : OrderItem),
      applyInventoryUpdates ps items = .ok ps' →
      (items.map OrderItem.id).Nodup →
      item ∈ items →
      ∃ p, lookupKey ps item.id = some p ∧
        lookupKey ps' item.id =
          some { p with
            quantityAvailable := item.quantityAvailable - item.quantity } := by
  induction items with
  | nil => intro ps ps' item h hnd hmem; cases hmem
  | cons hd rest ih =>
    intro ps ps' item h hnd hmem
    simp only [applyInventoryUpdates] at h
    cases hp : lookupKey ps hd.id with
    | none => rw [hp] at h; cases h
    | some p =>
      rw [hp] at h
      simp only [List.map_cons, List.nodup_cons] at hnd
      rcases List.mem_cons.mp hmem with rfl | hmem'
      · refine ⟨p, hp, ?_⟩
        rw [applyInventoryUpdates_untouched rest _ _ _ h hnd.1,
          lookupKey_insertKey_self]
      · have hne : item.id ≠ hd.id := by
          intro he
          exact hnd.1 (he ▸ List.mem_map_of_mem OrderItem.id hmem')
        obtain ⟨q, hq, hq'⟩ := ih _ _ item h hnd.2 hmem'
        rw [lookupKey_insertKey_ne _ _ _ _ hne] at hq
        exact ⟨q, hq, hq'⟩

theorem processOrder_ok_inv (db : DB) (checkAvail : String → ℚ)
    (sendEmail : Order → Except String Unit)
    (orderId orderNumber createdAt userId : String) (orderData : OrderData)
    (o : Order)
    (hok : (processOrder db checkAvail sendEmail orderId orderNumber createdAt
      orderData userId).1 = .ok o) :
    o = builtOrder orderId orderNumber createdAt userId orderData ∧
    ∃ db1, commitOrderBatch db
        (builtOrder orderId orderNumber createdAt userId orderData)
        orderData.items = .ok db1 ∧
      (processOrder db checkAvail sendEmail orderId orderNumber createdAt
        orderData userId).2 = db1 := by
  simp only [processOrder] at hok ⊢
  cases h1 : validateActiveSession db userId with
  | error e => simp [h1] at hok
  | ok u =>
    simp only [h1] at hok ⊢
    cases h2 : validateOrderData db orderData with
    | error e => simp [h2] at hok
    | ok _ =>
      simp only [h2] at hok ⊢
      cases h3 : validateInventoryAvailability checkAvail orderData.items with
      | error e => simp [h3] at hok
      | ok _ =>
        simp only [h3] at hok ⊢
        cases h4 : commitOrderBatch db
            (builtOrder orderId orderNumber createdAt userId orderData)
            orderData.items with
        | error e => simp [h4] at hok
        | ok db1 =>
          simp only [h4] at hok ⊢
          cases h5 : sendEmail
              (builtOrder orderId orderNumber createdAt userId orderData) with
          | error e => simp [h5] at hok
          | ok _ =>
            simp only [h5] at hok
            simp at hok
            exact ⟨hok.symm, db1, rfl, rfl⟩

/-- Claim C1 (counterexample): everything up to and including the atomic
batch commit succeeds, then the order-confirmation email throws
`smtp unavailable`; `processOrder` surfaces
`Failed to process order: smtp unavailable` to the caller instead of
returning the created order — even though the committed order document, with
`status = processing`, is in the database. -/
theorem processOrder_email_failure_counterexample :
    (processOrder
        ⟨[("u1", ⟨"u1", "customer", false, false⟩)], [("p1", ⟨"Tea", 5⟩)], []⟩
        (fun _ => 5) (fun _ => .error "smtp unavailable") "o1" "ORD-1" "t0"
        ⟨[⟨"p1", 1, 10⟩], some ⟨some "addr"⟩⟩ "u1").1 =
      .error "Failed to process order: smtp unavailable" ∧
    lookupKey (processOrder
        ⟨[("u1", ⟨"u1", "customer", false, false⟩)], [("p1", ⟨"Tea", 5⟩)], []⟩
        (fun _ => 5) (fun _ => .error "smtp unavailable") "o1" "ORD-1" "t0"
        ⟨[⟨"p1", 1, 10⟩], some ⟨some "addr"⟩⟩ "u1").2.orders "o1" =
      some (builtOrder "o1" "ORD-1" "t0" "u1"
        ⟨[⟨"p1", 1, 10⟩], some ⟨some "addr"⟩⟩) ∧
    (builtOrder "o1" "ORD-1" "t0" "u1"
        ⟨[⟨"p1", 1, 10⟩], some ⟨some "addr"⟩⟩).status = "processing" :=
  ⟨rfl, rfl, rfl⟩

/-- Claim C1 (amended): only the search-index sync is isolated —
`syncProductToSearch` swallows any indexing error — while the
order-confirmation email in `processOrder` sits inside the transaction's
try/catch: when the pre-checks and the atomic commit succeed and the email
service then throws, `processOrder` propagates the failure to the caller as
`Failed to process order`, although the committed order document (with
`status = processing`) remains in the database. -/
theorem processOrder_email_not_isolated (db : DB) (checkAvail : String → ℚ)
    (emailErr : String) (orderId orderNumber createdAt userId : String)
    (orderData : OrderData) (u : UserRecord) (db1 : DB)
    (h1 : validateActiveSession db userId = .ok u)
    (h2 : validateOrderData db orderData = .ok ())
    (h3 : validateInventoryAvailability checkAvail orderData.items = .ok ())
    (h4 : commitOrderBatch db
      (builtOrder orderId orderNumber createdAt userId orderData)
      orderData.items = .ok db1) :
    (∀ r, syncProductToSearch r = .ok ()) ∧
    processOrder db checkAvail (fun _ => .error emailErr) orderId orderNumber
      createdAt orderData userId =
      (.error ("Failed to process order: " ++ emailErr), db1) ∧
    lookupKey db1.orders orderId =
      some (builtOrder orderId orderNumber createdAt userId orderData) ∧
    (builtOrder orderId orderNumber createdAt userId orderData).status =
      "processing" := by
  refine ⟨fun r => by cases r <;> rfl, ?_, ?_, rfl⟩
  · simp only [processOrder, h1, h2, h3, h4]
  · unfold commitOrderBatch at h4
    cases h : applyInventoryUpdates db.products orderData.items with
    | error e => rw [h] at h4; cases h4
    | ok ps1 =>
      rw [h] at h4
      injection h4 with h4
      rw [← h4]
      exact lookupKey_insertKey_self _ _ _

/-- Witness for C1's amended theorem: user `u1`, one item of product `p1`
with a matching snapshot, email service down. -/
theorem processOrder_email_not_isolated_witness :
    processOrder
      ⟨[("u1", ⟨"u1", "customer", false, false⟩)], [("p1", ⟨"Tea", 5⟩)], []⟩
      (fun _ => 5) (fun _ => .error "smtp down") "o1" "ORD-1" "t0"
      ⟨[⟨"p1", 1, 5⟩], some ⟨some "addr"⟩⟩ "u1" =
      (.error ("Failed to process order: " ++ "smtp down"),
        ⟨[("u1", ⟨"u1", "customer", false, false⟩)],
          [("p1", ⟨"Tea", 5 - 1⟩)],
          [("o1", builtOrder "o1" "ORD-1" "t0" "u1"
            ⟨[⟨"p1", 1, 5⟩], some ⟨some "addr"⟩⟩)]⟩) :=
  (processOrder_email_not_isolated
    ⟨[("u1", ⟨"u1", "customer", false, false⟩)], [("p1", ⟨"Tea", 5⟩)], []⟩
    (fun _ => 5) "smtp down" "o1" "ORD-1" "t0" "u1"
    ⟨[⟨"p1", 1, 5⟩], some ⟨some "addr"⟩⟩ ⟨"u1", "customer", false, false⟩
    ⟨[("u1", ⟨"u1", "customer", false, false⟩)],
      [("p1", ⟨"Tea", 5 - 1⟩)],
      [("o1", builtOrder "o1" "ORD-1" "t0" "u1"
        ⟨[⟨"p1", 1, 5⟩], some ⟨some "addr"⟩⟩)]⟩
    rfl rfl rfl rfl).2.1

/-- Claim C2 (counterexample): a successful `processOrder` whose order item
carries a stale snapshot field `quantityAvailable = 10` while the stored
value at commit time is `5`: the batch write sets the stored quantity to
`10 - 1 = 9` and not to the claimed stored-value-minus-quantity `5 - 1`. -/
theorem processOrder_overwrite_counterexample :
    (processOrder
        ⟨[("u1", ⟨"u1", "customer", false, false⟩)], [("p1", ⟨"Tea", 5⟩)], []⟩
        (fun _ => 5) (fun _ => .ok ()) "o1" "ORD-1" "t0"
        ⟨[⟨"p1", 1, 10⟩], some ⟨some "addr"⟩⟩ "u1").1 =
      .ok (builtOrder "o1" "ORD-1" "t0" "u1"
        ⟨[⟨"p1", 1, 10⟩], some ⟨some "addr"⟩⟩) ∧
    (processOrder
        ⟨[("u1", ⟨"u1", "customer", false, false⟩)], [("p1", ⟨"Tea", 5⟩)], []⟩
        (fun _ => 5) (fun _ => .ok ()) "o1" "ORD-1" "t0"
        ⟨[⟨"p1", 1, 10⟩], some ⟨some "addr"⟩⟩ "u1").2.products =
      [("p1", ⟨"Tea", 10 - 1⟩)] ∧
    (10 - 1 : ℚ) = 9 ∧ (9 : ℚ) ≠ 5 - 1 :=
  ⟨rfl, rfl, by norm_num, by norm_num⟩

/-- Claim C2 (amended): for every successful `processOrder` call whose item
ids are distinct, the committed batch overwrites each referenced product's
stored `quantityAvailable` with `item.quantityAvailable - item.quantity` —
the value computed from the snapshot field carried on the order item, which
coincides with the claimed stored-value-at-commit-minus-quantity only when
that snapshot equals the stored value. -/
theorem processOrder_quantity_overwrite (db : DB) (checkAvail : String → ℚ)
    (sendEmail : Order → Except String Unit)
    (orderId orderNumber createdAt userId : String) (orderData : OrderData)
    (o : Order)
    (hok : (processOrder db checkAvail sendEmail orderId orderNumber createdAt
      orderData userId).1 = .ok o)
    (hnodup : (orderData.items.map OrderItem.id).Nodup)
    (item : OrderItem) (hitem : item ∈ orderData.items) :
    ∃ p, lookupKey db.products item.id = some p ∧
      lookupKey (processOrder db checkAvail sendEmail orderId orderNumber
        createdAt orderData userId).2.products item.id =
        some { p with
          quantityAvailable := item.quantityAvailable - item.quantity } := by
  obtain ⟨-, db1, hcommit, hdb⟩ := processOrder_ok_inv db checkAvail sendEmail
    orderId orderNumber createdAt userId orderData o hok
  rw [hdb]
  unfold commitOrderBatch at hcommit
  cases h : applyInventoryUpdates db.products orderData.items with
  | error e => rw [h] at hcommit; cases hcommit
  | ok ps1 =>
    rw [h] at hcommit
    injection hcommit with hcommit
    obtain ⟨p, hp, hp'⟩ := applyInventoryUpdates_mem orderData.items db.products
      ps1 item h hnodup hitem
    refine ⟨p, hp, ?_⟩
    rw [← hcommit]
    exact hp'

/-- Witness for C2's amended theorem: one item of `p1` whose snapshot `5`
matches the stored value, ordering 2 units. -/
theorem processOrder_quantity_overwrite_witness :
    ∃ p, lookupKey [("p1", (⟨"Tea", 5⟩ : Product))] "p1" = some p ∧
      lookupKey (processOrder
        ⟨[("u1", ⟨"u1", "customer", false, false⟩)], [("p1", ⟨"Tea", 5⟩)], []⟩
        (fun _ => 5) (fun _ => .ok ()) "o1" "ORD-1" "t0"
        ⟨[⟨"p1", 2, 5⟩], some ⟨some "addr"⟩⟩ "u1").2.products "p1" =
        some { p with quantityAvailable := 5 - 2 } :=
  processOrder_quantity_overwrite
    ⟨[("u1", ⟨"u1", "customer", false, false⟩)], [("p1", ⟨"Tea", 5⟩)], []⟩
    (fun _ => 5) (fun _ => .ok ()) "o1" "ORD-1" "t0" "u1"
    ⟨[⟨"p1", 2, 5⟩], some ⟨some "addr"⟩⟩
    (builtOrder "o1" "ORD-1" "t0" "u1" ⟨[⟨"p1", 2, 5⟩], some ⟨some "addr"⟩⟩)
    rfl (by simp) ⟨"p1", 2, 5⟩ (by simp)

/-- Claim C4 (refuted — code bug): the required-field loop tests JS
truthiness (`!productData[field]`), so a product whose `quantityAvailable`
is `0` — a value the dedicated `quantityAvailable < 0` check accepts — is
rejected as a missing field, and `price = 0` is likewise rejected as a
missing field rather than with the price validation error; a negative price
does get the price error and a fully valid product passes. -/
theorem validateProductData_zero_quantity_rejected :
    validateProductData ⟨some "Himalayan Honey", some "Raw honey", some 10,
        some "food", some 0⟩ =
      .error "Missing required field: quantityAvailable" ∧
    validateProductData ⟨some "Himalayan Honey", some "Raw honey", some 0,
        some "food", some 5⟩ =
      .error "Missing required field: price" ∧
    validateProductData ⟨some "Himalayan Honey", some "Raw honey", some (-3),
        some "food", some 5⟩ =
      .error "Price must be greater than 0" ∧
    validateProductData ⟨some "Himalayan Honey", some "Raw honey", some 10,
        some "food", some 5⟩ = .ok () :=
  ⟨rfl, rfl, rfl, rfl⟩

/-- Claim C5 (refuted — code bug, the TOCTOU gap): one product `p1` with
`quantityAvailable = 1`; caller A's whole `processOrder` (1 unit) succeeds;
caller B's advisory pre-checks (1 unit) also pass, having read the same
initial snapshot before A committed; B's unconditional batch commit then
also succeeds against the post-A database, because the write just overwrites
`quantityAvailable` with the absolute value `1 - 1` computed from B's
snapshot.  Both orders stand and no `OutOfStock` failure occurs. -/
theorem processOrder_both_succeed_interleaved :
    (processOrder
        ⟨[("uA", ⟨"uA", "customer", false, false⟩),
          ("uB", ⟨"uB", "customer", false, false⟩)],
          [("p1", ⟨"Tea", 1⟩)], []⟩
        (fun _ => 1) (fun _ => .ok ()) "oA" "ORD-A" "t1"
        ⟨[⟨"p1", 1, 1⟩], some ⟨some "addrA"⟩⟩ "uA").1 =
      .ok (builtOrder "oA" "ORD-A" "t1" "uA"
        ⟨[⟨"p1", 1, 1⟩], some ⟨some "addrA"⟩⟩) ∧
    validateActiveSession
      ⟨[("uA", ⟨"uA", "customer", false, false⟩),
        ("uB", ⟨"uB", "customer", false, false⟩)],
        [("p1", ⟨"Tea", 1⟩)], []⟩ "uB" = .ok ⟨"uB", "customer", false, false⟩ ∧
    validateOrderData
      ⟨[("uA", ⟨"uA", "customer", false, false⟩),
        ("uB", ⟨"uB", "customer", false, false⟩)],
        [("p1", ⟨"Tea", 1⟩)], []⟩
      ⟨[⟨"p1", 1, 1⟩], some ⟨some "addrB"⟩⟩ = .ok () ∧
    validateInventoryAvailability (fun _ => 1) [⟨"p1", 1, 1⟩] = .ok () ∧
    commitOrderBatch
      (processOrder
        ⟨[("uA", ⟨"uA", "customer", false, false⟩),
          ("uB", ⟨"uB", "customer", false, false⟩)],
          [("p1", ⟨"Tea", 1⟩)], []⟩
        (fun _ => 1) (fun _ => .ok ()) "oA" "ORD-A" "t1"
        ⟨[⟨"p1", 1, 1⟩], some ⟨some "addrA"⟩⟩ "uA").2
      (builtOrder "oB" "ORD-B" "t2" "uB" ⟨[⟨"p1", 1, 1⟩], some ⟨some "addrB"⟩⟩)
      [⟨"p1", 1, 1⟩] =
      .ok ⟨[("uA", ⟨"uA", "customer", false, false⟩),
            ("uB", ⟨"uB", "customer", false, false⟩)],
        [("p1", ⟨"Tea", 1 - 1⟩)],
        [("oB", builtOrder "oB" "ORD-B" "t2" "uB"
            ⟨[⟨"p1", 1, 1⟩], some ⟨some "addrB"⟩⟩),
          ("oA", builtOrder "oA" "ORD-A" "t1" "uA"
            ⟨[⟨"p1", 1, 1⟩], some ⟨some "addrA"⟩⟩)]⟩ ∧
    (1 - 1 : ℚ) = 0 :=
  ⟨rfl, rfl, rfl, rfl, rfl, by norm_num⟩

/-- Witness for C9 at a concrete cart with one item (price 100, quantity 2). -/
theorem grandTotal_identity_witness :
    getGrandTotal { cart := [⟨"p1", "Tea", 100, 2⟩], loading := false, error := none } =
      getSubtotal { cart := [⟨"p1", "Tea", 100, 2⟩], loading := false, error := none } +
      getTax { cart := [⟨"p1", "Tea", 100, 2⟩], loading := false, error := none } +
      getShipping { cart := [⟨"p1", "Tea", 100, 2⟩], loading := false, error := none } :=
  (grandTotal_identity { cart := [⟨"p1", "Tea", 100, 2⟩], loading := false, error := none }).1

/-- Witness for C10 at a concrete cache holding entries for `u1` and for the
prefix-sharing uid `u12`: after clearing `u1`, the lookup `checkRole` would
perform misses. -/
theorem clearCache_startsWith_witness :
    cacheGet (clearCache
      [("u1_admin", ⟨true, ⟨"u1", "admin", false, false⟩, 0⟩),
        ("u12_admin", ⟨true, ⟨"u12", "admin", false, false⟩, 0⟩)] (some "u1"))
      ("u1" ++ "_" ++ "admin") = none :=
  (clearCache_startsWith
    [("u1_admin", ⟨true, ⟨"u1", "admin", false, false⟩, 0⟩),
      ("u12_admin", ⟨true, ⟨"u12", "admin", false, false⟩, 0⟩)] "u1").2.1 "admin"

end Storefront
